import Mathlib

/-!
Verification of nvtxpy (`nvtxpy/nvtx.py`), a Python binding to the NVIDIA
NVTX profiling library.  The development shallowly embeds the pure
logic: the event-record codec (`_EventAttributes_v1`, `_create_event`), the
facade dispatch (`profile_mark` / `profile_range_push` in both the bound and
the unavailable configuration), the library locator (`_get_cuda_nvtx_path`),
the context manager `profile_range` (including the generator semantics of
`contextlib.contextmanager`), and the statistics dictionary with its
`deepcopy`-based `getstats` accessor (modelled with an explicit heap of
mutable cells so that aliasing is visible).

Machine integers are modelled as `Nat`/`Int` with explicit reduction modulo
`2^w` where ctypes masks (`c_uint32`, `c_int64`, ...).  Python floats are
modelled as exact rationals `ℚ`: the module only adds and subtracts
durations and stores a payload value, so no claim depends on IEEE-754
rounding; cross-variant reinterpretation of the ctypes unions (reading the
bits of a stored double as an integer, a contract violation per the record
invariant) is not modelled and surfaces as an explicit error value.
-/

namespace Nvtxpy

/-! ### Constants (nvtx.py lines 57–69) -/

def _NVTX_VERSION : Nat := 1

def _NVTX_COLOR_UNKNOWN : Int := 0

def _NVTX_COLOR_ARGB : Int := 1

def _NVTX_PAYLOAD_UNKNOWN : Int := 0

def _NVTX_PAYLOAD_TYPE_UNSIGNED_INT64 : Int := 1

def _NVTX_PAYLOAD_TYPE_INT64 : Int := 2

def _NVTX_PAYLOAD_TYPE_DOUBLE : Int := 3

def _NVTX_MESSAGE_UNKNOWN : Int := 0

def _NVTX_MESSAGE_TYPE_ASCII : Int := 1

def _NVTX_MESSAGE_TYPE_UNICODE : Int := 2

/-! ### ctypes unions (nvtx.py lines 71–78)

`_Payload` is a 64-bit union of `c_uint64`/`c_int64`/`c_double`.  The two
integer views genuinely alias, so they share one raw-bits constructor; the
double view is kept abstract as a rational (its IEEE bit pattern, and hence
reinterpreting it as an integer, is outside the model). -/

inductive _Payload where
  | ints (bits : Nat)
  | dbl (val : ℚ)
deriving DecidableEq, Repr

/-- The `_Message` union of `c_char_p` (`ascii`) and `c_wchar_p` (`unicode`);
a `none` models a NULL pointer.  All-zero initialisation is `.ascii none`. -/
inductive _Message where
  | ascii (s : Option String)
  | unicode (s : Option String)
deriving DecidableEq, Repr

/-- ctypes `c_int64` masking on assignment: value stored modulo `2^64`. -/
def toBits64 (z : Int) : Nat := (z % (2 ^ 64 : Int)).toNat

/-- Signed (two-complement) read of a 64-bit cell as `c_int64` (`ll_value`). -/
def toSigned64 (b : Nat) : Int := if b < 2 ^ 63 then (b : Int) else (b : Int) - 2 ^ 64

/-- The Python `hex` function on a non-negative int, as used by the `color` property. -/
def pyHex (n : Nat) : String := "0x" ++ (Nat.toDigits 16 n).asString

/-! ### The event record (nvtx.py lines 80–135) -/

/-- The `_EventAttributes_v1` ctypes structure.  `version`, `size`, `category`
are `c_uint16`/`c_uint16`/`c_uint32`; the discriminants are `c_int32`.
Layout (offsets/padding) is not modelled beyond the `size` value, which on a
64-bit platform is 48 bytes. -/
structure EventAttributes_v1 where
  version : Nat
  size : Nat
  category : Nat
  _color_type : Int
  _color : Nat
  _payload_type : Int
  _reserved0 : Int
  _payload : _Payload
  _message_type : Int
  _message : _Message
deriving DecidableEq, Repr

/-- Constructor `__init__`: memset to zero, then `version = _NVTX_VERSION`,
`size = sizeof(self)` (48 on a 64-bit platform). -/
def eventAttributesInit : EventAttributes_v1 :=
  { version := _NVTX_VERSION
    size := 48
    category := 0
    _color_type := 0
    _color := 0
    _payload_type := 0
    _reserved0 := 0
    _payload := .ints 0
    _message_type := 0
    _message := .ascii none }

/-- A decoded payload value as Python would see it: an int (from either
64-bit integer view) or a float (from the double view). -/
inductive PyVal where
  | int (z : Int)
  | real (q : ℚ)
deriving DecidableEq, Repr

/-- The `payload` property (lines 92–103): dispatch on `_payload_type`;
an unknown discriminant raises `AttributeError` (modelled as `.error`).
A cross-variant read (stored double read through an integer view or vice
versa) would reinterpret IEEE bits, which the model does not cover; it can
only arise on records violating the one-valid-view invariant. -/
def EventAttributes_v1.payload (e : EventAttributes_v1) : Except String (Option PyVal) :=
  if e._payload_type = _NVTX_PAYLOAD_UNKNOWN then .ok none
  else if e._payload_type = _NVTX_PAYLOAD_TYPE_UNSIGNED_INT64 then
    match e._payload with
    | .ints b => .ok (some (.int (b : Int)))
    | .dbl _ => .error "cross-variant read not modelled"
  else if e._payload_type = _NVTX_PAYLOAD_TYPE_INT64 then
    match e._payload with
    | .ints b => .ok (some (.int (toSigned64 b)))
    | .dbl _ => .error "cross-variant read not modelled"
  else if e._payload_type = _NVTX_PAYLOAD_TYPE_DOUBLE then
    match e._payload with
    | .dbl q => .ok (some (.real q))
    | .ints _ => .error "cross-variant read not modelled"
  else .error "Payload of unknown type"

/-- The `color` property (lines 105–112): `None`, `hex(self._color)`, or
`AttributeError` on an unknown discriminant. -/
def EventAttributes_v1.color (e : EventAttributes_v1) : Except String (Option String) :=
  if e._color_type = _NVTX_COLOR_UNKNOWN then .ok none
  else if e._color_type = _NVTX_COLOR_ARGB then .ok (some (pyHex e._color))
  else .error "Color of unknown type"

/-- The `message` property (lines 114–123): dispatch on `_message_type`;
an unknown discriminant raises `AttributeError`. -/
def EventAttributes_v1.message (e : EventAttributes_v1) : Except String (Option String) :=
  if e._message_type = _NVTX_MESSAGE_UNKNOWN then .ok none
  else if e._message_type = _NVTX_MESSAGE_TYPE_ASCII then
    match e._message with
    | .ascii s => .ok s
    | .unicode _ => .error "cross-variant read not modelled"
  else if e._message_type = _NVTX_MESSAGE_TYPE_UNICODE then
    match e._message with
    | .unicode s => .ok s
    | .ascii _ => .error "cross-variant read not modelled"
  else .error "Message of unknown type"

/-! ### The encoder `_create_event` (nvtx.py lines 152–174) -/

/-- A Python value passed as `payload`: an `int` (instance of
`numbers.Integral`), a `float` (instance of `numbers.Real` but not
`Integral`), or any other object (neither, e.g. a string or a complex
number), for which `_create_event` takes no branch. -/
inductive PyNum where
  | int (z : Int)
  | float (q : ℚ)
  | other
deriving DecidableEq, Repr

def _create_event (message : Option String) (color : Option Nat)
    (payload : Option PyNum) (category : Option Nat) : EventAttributes_v1 :=
  let ea := eventAttributesInit
  let ea := match category with
    | some c => { ea with category := c % 2 ^ 32 }
    | none => ea
  let ea := match color with
    | some c => { ea with _color_type := _NVTX_COLOR_ARGB, _color := c % 2 ^ 32 }
    | none => ea
  let ea := match payload with
    | some (.int z) =>
        { ea with _payload_type := _NVTX_PAYLOAD_TYPE_INT64, _payload := .ints (toBits64 z) }
    | some (.float q) =>
        { ea with _payload_type := _NVTX_PAYLOAD_TYPE_DOUBLE, _payload := .dbl q }
    | some .other => ea
    | none => ea
  let ea := match message with
    | some m => { ea with _message_type := _NVTX_MESSAGE_TYPE_ASCII, _message := .ascii (some m) }
    | none => ea
  ea

instance {ε α : Type} [DecidableEq ε] [DecidableEq α] : DecidableEq (Except ε α) := fun x y =>
  match x, y with
  | .ok a, .ok b => if h : a = b then .isTrue (by simp [h]) else .isFalse (by simp [h])
  | .error a, .error b => if h : a = b then .isTrue (by simp [h]) else .isFalse (by simp [h])
  | .ok _, .error _ => .isFalse (by simp)
  | .error _, .ok _ => .isFalse (by simp)

/-! ### The native entry points and the facade (nvtx.py lines 140–207)

A call into the bound native library is recorded as a `NativeCall` value;
the facade functions of the successful-binding configuration return the one
native call they perform.  The fallback configuration (the `except` branch,
lines 199–207) performs none and is modelled in namespace `Unavailable`;
a result of `.ok ()` models a normal `None` return with no exception. -/

inductive NativeCall where
  | nvtxMarkA (message : Option String)
  | nvtxMarkEx (e : EventAttributes_v1)
  | nvtxRangePushA (message : Option String)
  | nvtxRangePushEx (e : EventAttributes_v1)
  | nvtxRangePop
deriving DecidableEq, Repr

namespace Available

/-- Function `profile_mark` (lines 181–186) in the bound configuration: the simple
ascii entry point when color, payload and category are all `None`, otherwise
`_create_event` plus the extended entry point. -/
def profile_mark (message : Option String) (color : Option Nat)
    (payload : Option PyNum) (category : Option Nat) : NativeCall :=
  if color = none ∧ payload = none ∧ category = none then
    .nvtxMarkA message
  else
    .nvtxMarkEx (_create_event message color payload category)

/-- Function `profile_range_push` (lines 189–194) in the bound configuration. -/
def profile_range_push (message : Option String) (color : Option Nat)
    (payload : Option PyNum) (category : Option Nat) : NativeCall :=
  if color = none ∧ payload = none ∧ category = none then
    .nvtxRangePushA message
  else
    .nvtxRangePushEx (_create_event message color payload category)

/-- The binding `profile_range_pop = _lib.nvtxRangePop` (line 197). -/
def profile_range_pop : NativeCall := .nvtxRangePop

end Available

namespace Unavailable

/-- Fallback `profile_mark` (lines 200–201): `pass`.  The result is a normal
return (`.ok ()`, never an exception) together with the empty list of native
calls performed. -/
def profile_mark (_message : Option String) (_color : Option Nat)
    (_payload : Option PyNum) (_category : Option Nat) :
    Except String Unit × List NativeCall := (.ok (), [])

/-- Fallback `profile_range_push` (lines 203–204): `pass`. -/
def profile_range_push (_message : Option String) (_color : Option Nat)
    (_payload : Option PyNum) (_category : Option Nat) :
    Except String Unit × List NativeCall := (.ok (), [])

/-- Fallback `profile_range_pop` (lines 206–207): `pass`. -/
def profile_range_pop : Except String Unit × List NativeCall := (.ok (), [])

end Unavailable

/-! ### The library locator `_get_cuda_nvtx_path` (nvtx.py lines 16–40) -/

/-- Python `str.startswith`, restated over the character lists (the
stdlib function `String.startsWith` is not kernel-reducible). -/
def strStartsWith (s pre : String) : Bool := pre.data.isPrefixOf s.data

/-- Python `str.endswith`, restated over the character lists. -/
def strEndsWith (s post : String) : Bool := post.data.isSuffixOf s.data

/-- POSIX `os.path.join` for the relative second component used here: insert
a separator unless the first part already ends with one.  (On win32 Python
would use `ntpath` with a backslash; the separator choice is immaterial to
the claims, which are about which components make up the path.) -/
def osPathJoin (a b : String) : String :=
  if strEndsWith a "/" ∨ a = "" then a ++ b else a ++ "/" ++ b

/-- The extension selected by the `sys.platform` chain of lines 31–38. -/
def platformExt (platform : String) : String :=
  if platform = "darwin" then ".dylib"
  else if strStartsWith platform "linux" then ".so"
  else if platform = "win32" then ".dll"
  else ""

/-- Function `_get_cuda_nvtx_path`: `env_override` models the environment value `NVTXPY_CUDA_TOOLKIT` read at line 17,
`platform` is `sys.platform`.  Returns the candidate path or `none`. -/
def _get_cuda_nvtx_path (env_override : Option String) (platform : String) : Option String :=
  let base : Option String :=
    match env_override with
    | some b => some b
    | none =>
        if platform = "darwin" then some "/Developer/NVIDIA/CUDA-7.5/lib"
        else if strStartsWith platform "linux" then some "/usr/local/cuda-7.0/lib64"
        else none
  match base with
  | some b => some (osPathJoin b ("libnvToolsExt" ++ platformExt platform))
  | none => none

/-! ### The statistics dictionary and `getstats` (nvtx.py lines 223, 238–243, 258–259)

In Python, `_stats` maps a name to a mutable two-element list `[count, total]`.
To make `deepcopy` meaningful the lists live in an explicit heap of cells
addressed by `Nat` references; the dictionary maps names to references. -/

/-- One `[count, total]` list: invocation count and accumulated elapsed
time (a Python float, modelled as an exact rational). -/
abbrev StatCell := Nat × ℚ

abbrev Heap := List StatCell

/-- The `_stats` dictionary: insertion-ordered association of names to cell
references. -/
abbrev StatsDict := List (String × Nat)

/-- Read the list a reference points to (`none` only on a dangling
reference, which no reachable state produces). -/
def readCell (h : Heap) (r : Nat) : Option StatCell := h[r]?

/-- In-place mutation of one list: `stat[0] += 1; stat[1] += t` style writes
go through this. -/
def writeCell (h : Heap) (r : Nat) (v : StatCell) : Heap := h.set r v

/-- Dictionary lookup `dict.get(name)` on `_stats`: the reference bound to `name`, if any. -/
def dictGet (d : StatsDict) (name : String) : Option Nat :=
  (d.find? (fun p => p.1 = name)).map (·.2)

/-- The logical content of a dictionary under a heap: each name paired with
the value of its list.  Two states with equal `readDict` are
indistinguishable to a reader of `_stats`. -/
def readDict (h : Heap) (d : StatsDict) : List (String × Option StatCell) :=
  d.map (fun p => (p.1, readCell h p.2))

/-- One step of `deepcopy` over `_stats`: allocate a fresh cell holding a
copy of the entry list and bind the entry name to it in the copy. -/
def getstatsStep (h : Heap) (acc : Heap × StatsDict) (p : String × Nat) : Heap × StatsDict :=
  (acc.1 ++ [(readCell h p.2).getD (0, 0)], acc.2 ++ [(p.1, acc.1.length)])

/-- Function `getstats`, i.e. `deepcopy(_stats)` (lines 258–259): a new dictionary whose
every entry points to a freshly allocated copy of the original list.
Returns the grown heap and the dictionary of the copy. -/
def getstats (h : Heap) (d : StatsDict) : Heap × StatsDict :=
  d.foldl (getstatsStep h) (h, [])

/-- Apply a sequence of in-place list mutations `stat[i] = v` (each given as
a cell reference and the list value it leaves behind). -/
def applyWrites (ws : List (Nat × StatCell)) (h : Heap) : Heap :=
  ws.foldl (fun hh w => writeCell hh w.1 w.2) h

/-! ### `profile_range` and friends (nvtx.py lines 225–255)

`profile_range` is a generator decorated with `contextlib.contextmanager`.
Entering the `with` block runs the generator up to `yield` (the push and the
first `time()` read); then the caller block runs, with an outcome that is
either normal completion or an exception.  On normal completion the
generator resumes after `yield`: it computes the elapsed time, updates
`_stats`, and pops.  On an exception, `__exit__` throws the exception into
the generator at the `yield`; the generator has no `try`/`finally` around
the `yield`, so the exception propagates out immediately and nothing after
the `yield` runs — no stats update and no pop.

Wall-clock time is nondeterministic input, so the elapsed duration
`time() - t` is a parameter.  The calls `profile_range_push` /
`profile_range_pop` made by the generator are recorded as `FacadeCall`s
(these are facade-level calls: they happen whether or not the binding is
available). -/

/-- Outcome of the caller block inside the `with` statement. -/
inductive Outcome where
  | ok
  | exn
deriving DecidableEq, Repr

/-- A call made by `profile_range` to the facade: `push` records the exact
arguments passed to `profile_range_push`. -/
inductive FacadeCall where
  | push (name : String) (color : Option Nat) (payload : Option PyNum) (category : Option Nat)
  | pop
deriving DecidableEq, Repr

def countPush (tr : List FacadeCall) : Nat :=
  tr.countP (fun c => match c with | .push _ _ _ _ => true | .pop => false)

def countPop (tr : List FacadeCall) : Nat :=
  tr.countP (fun c => match c with | .push _ _ _ _ => false | .pop => true)

/-- The mutable module state touched by `profile_range`: the heap of stat
lists and the `_stats` dictionary. -/
structure PRState where
  heap : Heap
  stats : StatsDict
deriving DecidableEq, Repr

/-- The `_stats` update block of `profile_range` (lines 238–243):
`stat = _stats.get(name)`; an existing list (always truthy) is mutated in
place, otherwise `_stats[name] = [1, t]` allocates a fresh list.  (The
dangling-reference fallback is unreachable from well-formed states.) -/
def statsCommit (name : String) (t : ℚ) (s : PRState) : PRState :=
  match dictGet s.stats name with
  | some r =>
      match readCell s.heap r with
      | some (c, tot) => { s with heap := writeCell s.heap r (c + 1, tot + t) }
      | none => s
  | none => { heap := s.heap ++ [(1, t)], stats := s.stats ++ [(name, s.heap.length)] }

/-- Function `profile_range` (lines 231–244) under `contextlib.contextmanager`
semantics; returns the facade calls performed, the final state, and the
outcome seen by the caller of the `with` statement. -/
def profile_range (name : String) (color : Option Nat) (payload : Option PyNum)
    (category : Option Nat) (elapsed : ℚ) (body : Outcome) (s : PRState) :
    List FacadeCall × PRState × Outcome :=
  match body with
  | .ok => ([.push name color payload none, .pop], statsCommit name elapsed s, .ok)
  | .exn => ([.push name color payload none], s, .exn)

/-- Function `profile_range_nvtx_only` (lines 225–229): same shape without the stats
update. -/
def profile_range_nvtx_only (name : String) (color : Option Nat) (payload : Option PyNum)
    (_category : Option Nat) (body : Outcome) : List FacadeCall × Outcome :=
  match body with
  | .ok => ([.push name color payload none, .pop], .ok)
  | .exn => ([.push name color payload none], .exn)

/-- Function `profiled(tag, category, color, payload)` (lines 247–255): the wrapper
runs the wrapped function inside
`profile_range(tag, category=category, color=color, payload=payload)`. -/
def profiled (tag : String) (category : Option Nat) (color : Option Nat)
    (payload : Option PyNum) (elapsed : ℚ) (body : Outcome) (s : PRState) :
    List FacadeCall × PRState × Outcome :=
  profile_range tag color payload category elapsed body s

/-- The list `_stats.get(name)` currently holds, read through the heap. -/
def statLookup (s : PRState) (name : String) : Option StatCell :=
  (dictGet s.stats name).bind (readCell s.heap)

/-! ## Theorems -/

/-- C2: when the native library binding is unavailable, every call to
`profile_mark`, `profile_range_push` and `profile_range_pop`, with any
arguments, returns normally (`.ok ()`), raises no exception, and performs no
native call. -/
theorem unavailable_noop (m : Option String) (c : Option Nat)
    (p : Option PyNum) (k : Option Nat) :
    Unavailable.profile_mark m c p k = (.ok (), []) ∧
    Unavailable.profile_range_push m c p k = (.ok (), []) ∧
    Unavailable.profile_range_pop = (.ok (), []) :=
  ⟨rfl, rfl, rfl⟩

/-- C8: with the binding available, `profile_mark` and `profile_range_push`
invoke the simple entry points (`nvtxMarkA` / `nvtxRangePushA`) carrying
just the message — no event record — exactly when color, payload and
category are all absent; otherwise they build the record with
`_create_event` and invoke the extended entry points (`nvtxMarkEx` /
`nvtxRangePushEx`). -/
theorem mark_push_fast_path :
    (∀ m, Available.profile_mark m none none none = .nvtxMarkA m) ∧
    (∀ m, Available.profile_range_push m none none none = .nvtxRangePushA m) ∧
    (∀ m c p k, ¬(c = none ∧ p = none ∧ k = none) →
      Available.profile_mark m c p k = .nvtxMarkEx (_create_event m c p k)) ∧
    (∀ m c p k, ¬(c = none ∧ p = none ∧ k = none) →
      Available.profile_range_push m c p k = .nvtxRangePushEx (_create_event m c p k)) := by
  refine ⟨fun m => ?_, fun m => ?_, fun m c p k hne => ?_, fun m c p k hne => ?_⟩
  · simp [Available.profile_mark]
  · simp [Available.profile_range_push]
  · simp [Available.profile_mark, hne]
  · simp [Available.profile_range_push, hne]

/-- Witness for C8 at concrete inputs: the fast path for a bare message,
the extended path once a color or a category is present. -/
theorem mark_push_fast_path_witness :
    Available.profile_mark (some "x") none none none = .nvtxMarkA (some "x") ∧
    Available.profile_mark (some "x") (some 0xffff0000) none none =
      .nvtxMarkEx (_create_event (some "x") (some 0xffff0000) none none) ∧
    Available.profile_range_push (some "x") none none (some 7) =
      .nvtxRangePushEx (_create_event (some "x") none none (some 7)) :=
  ⟨mark_push_fast_path.1 (some "x"),
   mark_push_fast_path.2.2.1 (some "x") (some 0xffff0000) none none (by simp),
   mark_push_fast_path.2.2.2 (some "x") none none (some 7) (by simp)⟩

/-- C5: encoding message "hi", color `0xffff0000`, payload `42`, category
`7` and reading the record back through its accessor properties yields the
message "hi", the ARGB color kind with a color resolving to `0xffff0000`
(Python renders it through `hex`), the signed-64 payload kind with payload
`42`, and category `7`. -/
theorem encode_decode_roundtrip :
    (_create_event (some "hi") (some 0xffff0000) (some (.int 42)) (some 7)).message
      = .ok (some "hi") ∧
    (_create_event (some "hi") (some 0xffff0000) (some (.int 42)) (some 7))._color_type
      = _NVTX_COLOR_ARGB ∧
    (_create_event (some "hi") (some 0xffff0000) (some (.int 42)) (some 7)).color
      = .ok (some "0xffff0000") ∧
    (_create_event (some "hi") (some 0xffff0000) (some (.int 42)) (some 7))._payload_type
      = _NVTX_PAYLOAD_TYPE_INT64 ∧
    (_create_event (some "hi") (some 0xffff0000) (some (.int 42)) (some 7)).payload
      = .ok (some (.int 42)) ∧
    (_create_event (some "hi") (some 0xffff0000) (some (.int 42)) (some 7)).category
      = 7 := by
  decide

/-- C6: for every `_create_event` call, an integral payload selects the
signed-64 kind and stores the two-complement 64-bit image of the value, a
floating payload selects the double kind, no input whatsoever produces the
unsigned-64 discriminant, and an absent payload leaves the kind at none
(zero). -/
theorem create_event_payload_kinds (m : Option String) (c : Option Nat) (k : Option Nat) :
    (∀ z : Int, (_create_event m c (some (.int z)) k)._payload_type = _NVTX_PAYLOAD_TYPE_INT64 ∧
      (_create_event m c (some (.int z)) k)._payload = .ints (toBits64 z)) ∧
    (∀ q : ℚ, (_create_event m c (some (.float q)) k)._payload_type = _NVTX_PAYLOAD_TYPE_DOUBLE ∧
      (_create_event m c (some (.float q)) k)._payload = .dbl q) ∧
    (∀ p : Option PyNum,
      (_create_event m c p k)._payload_type ≠ _NVTX_PAYLOAD_TYPE_UNSIGNED_INT64) ∧
    (_create_event m c none k)._payload_type = _NVTX_PAYLOAD_UNKNOWN := by
  refine ⟨fun z => ?_, fun q => ?_, fun p => ?_, ?_⟩
  · cases m <;> cases c <;> cases k <;> simp [_create_event, eventAttributesInit]
  · cases m <;> cases c <;> cases k <;> simp [_create_event, eventAttributesInit]
  · rcases p with _ | (_ | _ | _) <;> cases m <;> cases c <;> cases k <;>
      simp [_create_event, eventAttributesInit] <;> decide
  · cases m <;> cases c <;> cases k <;>
      simp [_create_event, eventAttributesInit, _NVTX_PAYLOAD_UNKNOWN]

/-- Witness for C6 at concrete inputs: an int payload, a float payload, a
non-numeric payload, and an absent payload. -/
theorem create_event_payload_kinds_witness :
    (_create_event (some "m") none (some (.int 5)) none)._payload_type
      = _NVTX_PAYLOAD_TYPE_INT64 ∧
    (_create_event (some "m") none (some (.float (1 / 2))) none)._payload_type
      = _NVTX_PAYLOAD_TYPE_DOUBLE ∧
    (_create_event (some "m") none (some .other) none)._payload_type
      ≠ _NVTX_PAYLOAD_TYPE_UNSIGNED_INT64 ∧
    (_create_event (some "m") none none none)._payload_type = _NVTX_PAYLOAD_UNKNOWN :=
  ⟨((create_event_payload_kinds (some "m") none none).1 5).1,
   ((create_event_payload_kinds (some "m") none none).2.1 (1 / 2)).1,
   (create_event_payload_kinds (some "m") none none).2.2.1 (some .other),
   (create_event_payload_kinds (some "m") none none).2.2.2⟩

/-- C7: the decoding properties dispatch strictly on their Kind
discriminant: kind none yields the absent value, each known kind yields
exactly the matching union variant, and a kind outside the known
enumeration raises (`AttributeError`, modelled `.error`) instead of
returning a value silently — for payload, color and message alike. -/
theorem decode_strict_dispatch (e : EventAttributes_v1) :
    (e._payload_type = _NVTX_PAYLOAD_UNKNOWN → e.payload = .ok none) ∧
    (∀ b, e._payload_type = _NVTX_PAYLOAD_TYPE_UNSIGNED_INT64 → e._payload = .ints b →
      e.payload = .ok (some (.int (b : Int)))) ∧
    (∀ b, e._payload_type = _NVTX_PAYLOAD_TYPE_INT64 → e._payload = .ints b →
      e.payload = .ok (some (.int (toSigned64 b)))) ∧
    (∀ q, e._payload_type = _NVTX_PAYLOAD_TYPE_DOUBLE → e._payload = .dbl q →
      e.payload = .ok (some (.real q))) ∧
    (e._payload_type ≠ 0 → e._payload_type ≠ 1 → e._payload_type ≠ 2 → e._payload_type ≠ 3 →
      e.payload = .error "Payload of unknown type") ∧
    (e._color_type = _NVTX_COLOR_UNKNOWN → e.color = .ok none) ∧
    (e._color_type = _NVTX_COLOR_ARGB → e.color = .ok (some (pyHex e._color))) ∧
    (e._color_type ≠ 0 → e._color_type ≠ 1 → e.color = .error "Color of unknown type") ∧
    (e._message_type = _NVTX_MESSAGE_UNKNOWN → e.message = .ok none) ∧
    (∀ s, e._message_type = _NVTX_MESSAGE_TYPE_ASCII → e._message = .ascii s →
      e.message = .ok s) ∧
    (∀ s, e._message_type = _NVTX_MESSAGE_TYPE_UNICODE → e._message = .unicode s →
      e.message = .ok s) ∧
    (e._message_type ≠ 0 → e._message_type ≠ 1 → e._message_type ≠ 2 →
      e.message = .error "Message of unknown type") := by
  refine ⟨?_, ?_, ?_, ?_, ?_, ?_, ?_, ?_, ?_, ?_, ?_, ?_⟩
  · intro h0; simp [EventAttributes_v1.payload, h0, _NVTX_PAYLOAD_UNKNOWN]
  · intro b h1 hb
    simp [EventAttributes_v1.payload, h1, hb, _NVTX_PAYLOAD_UNKNOWN,
      _NVTX_PAYLOAD_TYPE_UNSIGNED_INT64]
  · intro b h2 hb
    simp [EventAttributes_v1.payload, h2, hb, _NVTX_PAYLOAD_UNKNOWN,
      _NVTX_PAYLOAD_TYPE_UNSIGNED_INT64, _NVTX_PAYLOAD_TYPE_INT64]
  · intro q h3 hq
    simp [EventAttributes_v1.payload, h3, hq, _NVTX_PAYLOAD_UNKNOWN,
      _NVTX_PAYLOAD_TYPE_UNSIGNED_INT64, _NVTX_PAYLOAD_TYPE_INT64, _NVTX_PAYLOAD_TYPE_DOUBLE]
  · intro h0 h1 h2 h3
    simp [EventAttributes_v1.payload, h0, h1, h2, h3, _NVTX_PAYLOAD_UNKNOWN,
      _NVTX_PAYLOAD_TYPE_UNSIGNED_INT64, _NVTX_PAYLOAD_TYPE_INT64, _NVTX_PAYLOAD_TYPE_DOUBLE]
  · intro h0; simp [EventAttributes_v1.color, h0, _NVTX_COLOR_UNKNOWN]
  · intro h1; simp [EventAttributes_v1.color, h1, _NVTX_COLOR_UNKNOWN, _NVTX_COLOR_ARGB]
  · intro h0 h1
    simp [EventAttributes_v1.color, h0, h1, _NVTX_COLOR_UNKNOWN, _NVTX_COLOR_ARGB]
  · intro h0; simp [EventAttributes_v1.message, h0, _NVTX_MESSAGE_UNKNOWN]
  · intro s h1 hs
    simp [EventAttributes_v1.message, h1, hs, _NVTX_MESSAGE_UNKNOWN, _NVTX_MESSAGE_TYPE_ASCII]
  · intro s h2 hs
    simp [EventAttributes_v1.message, h2, hs, _NVTX_MESSAGE_UNKNOWN, _NVTX_MESSAGE_TYPE_ASCII,
      _NVTX_MESSAGE_TYPE_UNICODE]
  · intro h0 h1 h2
    simp [EventAttributes_v1.message, h0, h1, h2, _NVTX_MESSAGE_UNKNOWN,
      _NVTX_MESSAGE_TYPE_ASCII, _NVTX_MESSAGE_TYPE_UNICODE]

/-- Witness for C7: a record carrying out-of-range discriminants decodes to
an error on all three properties, the zero record decodes payload to the
absent value, and a signed-64 record decodes to its signed value. -/
theorem decode_strict_dispatch_witness :
    ({ eventAttributesInit with
        _payload_type := 9, _color_type := -1, _message_type := 4 } : EventAttributes_v1).payload
      = .error "Payload of unknown type" ∧
    ({ eventAttributesInit with
        _payload_type := 9, _color_type := -1, _message_type := 4 } : EventAttributes_v1).color
      = .error "Color of unknown type" ∧
    ({ eventAttributesInit with
        _payload_type := 9, _color_type := -1, _message_type := 4 } : EventAttributes_v1).message
      = .error "Message of unknown type" ∧
    eventAttributesInit.payload = .ok none ∧
    ({ eventAttributesInit with
        _payload_type := 2, _payload := .ints 7 } : EventAttributes_v1).payload
      = .ok (some (.int (toSigned64 7))) := by
  obtain ⟨-, -, -, -, h5, -, -, h8, -, -, -, h12⟩ :=
    decode_strict_dispatch
      { eventAttributesInit with _payload_type := 9, _color_type := -1, _message_type := 4 }
  obtain ⟨h1, -, -, -, -, -, -, -, -, -, -, -⟩ := decode_strict_dispatch eventAttributesInit
  obtain ⟨-, -, h3, -, -, -, -, -, -, -, -, -⟩ :=
    decode_strict_dispatch { eventAttributesInit with _payload_type := 2, _payload := .ints 7 }
  exact ⟨h5 (by decide) (by decide) (by decide) (by decide), h8 (by decide) (by decide),
    h12 (by decide) (by decide) (by decide), h1 (by decide), h3 7 (by decide) (by decide)⟩

/-- C9: the locator policy.  An override is used unconditionally, joined
with the platform library file name (`libnvToolsExt` plus the platform
extension); without an override, darwin and linux-prefixed platforms get
their single hardcoded default directory with `.dylib` / `.so`; every other
platform yields no candidate. -/
theorem locator_policy :
    (∀ o platform, _get_cuda_nvtx_path (some o) platform =
      some (osPathJoin o ("libnvToolsExt" ++ platformExt platform))) ∧
    _get_cuda_nvtx_path none "darwin"
      = some "/Developer/NVIDIA/CUDA-7.5/lib/libnvToolsExt.dylib" ∧
    (∀ platform, strStartsWith platform "linux" = true →
      _get_cuda_nvtx_path none platform
        = some "/usr/local/cuda-7.0/lib64/libnvToolsExt.so") ∧
    (∀ platform, platform ≠ "darwin" → strStartsWith platform "linux" = false →
      _get_cuda_nvtx_path none platform = none) := by
  refine ⟨fun o platform => rfl, by decide, ?_, ?_⟩
  · intro platform hlin
    have hd : platform ≠ "darwin" := by
      rintro rfl
      exact absurd hlin (by decide)
    simp [_get_cuda_nvtx_path, platformExt, hd, hlin]
    decide
  · intro platform h1 h2
    simp [_get_cuda_nvtx_path, h1, h2]

/-- Witness for C9: a linux-family platform resolves to the default .so
path, and win32 without an override yields no candidate. -/
theorem locator_policy_witness :
    _get_cuda_nvtx_path none "linux2" = some "/usr/local/cuda-7.0/lib64/libnvToolsExt.so" ∧
    _get_cuda_nvtx_path none "win32" = none :=
  ⟨locator_policy.2.2.1 "linux2" (by decide),
   locator_policy.2.2.2 "win32" (by decide) (by decide)⟩

/-- C1: against the claim, `profile_range` is NOT balanced on the
exceptional exit path.  The generator has no try/finally around its yield,
so when the enclosed block raises, the thrown-in exception propagates
before the pop: the trace holds one push and zero pops.  On normal
completion the pair is balanced. -/
theorem profile_range_exn_leaks (name : String) (c : Option Nat) (p : Option PyNum)
    (k : Option Nat) (t : ℚ) (s : PRState) :
    countPush (profile_range name c p k t .exn s).1 = 1 ∧
    countPop (profile_range name c p k t .exn s).1 = 0 ∧
    countPush (profile_range name c p k t .ok s).1 = 1 ∧
    countPop (profile_range name c p k t .ok s).1 = 1 :=
  ⟨rfl, rfl, rfl, rfl⟩

/-- C3: against the claim, the statistics are NOT updated on every exit:
an exceptional exit of the enclosed block leaves the state untouched (the
update sits after the unprotected yield).  On successful exits the update
does behave as claimed: a fresh name gets the entry `[1, t]`, an existing
entry `[c, tot]` becomes `[c + 1, tot + t]` in place (shown here on
concrete states). -/
theorem profile_range_stats_update (name : String) (c : Option Nat) (p : Option PyNum)
    (k : Option Nat) (t : ℚ) (s : PRState) :
    (profile_range name c p k t .exn s).2.1 = s ∧
    statLookup (profile_range "x" none none none 2 .ok ⟨[], []⟩).2.1 "x" = some (1, 2) ∧
    statLookup (profile_range "x" none none none 3 .ok ⟨[(1, 2)], [("x", 0)]⟩).2.1 "x"
      = some (2, 2 + 3) :=
  ⟨rfl, rfl, rfl⟩

/-- C10: the `category` argument of `profile_range` (and hence of the
`profiled` wrapper, and of `profile_range_nvtx_only`) is discarded: the
underlying `profile_range_push` is always invoked with category `None`,
whatever non-None category the caller passed. -/
theorem profile_range_discards_category (name : String) (c : Option Nat) (p : Option PyNum)
    (cat : Nat) (t : ℚ) (o : Outcome) (s : PRState) :
    (profile_range name c p (some cat) t o s).1.head? = some (.push name c p none) ∧
    (profiled name (some cat) c p t o s).1.head? = some (.push name c p none) ∧
    (profile_range_nvtx_only name c p (some cat) o).1.head? = some (.push name c p none) := by
  cases o <;> exact ⟨rfl, rfl, rfl⟩

theorem getstatsStep_fst (h : Heap) (s : Heap × StatsDict) (p : String × Nat) :
    (getstatsStep h s p).1 = s.1 ++ [(readCell h p.2).getD (0, 0)] := rfl

theorem getstats_fold_heap_ext (h : Heap) :
    ∀ (d : StatsDict) (s : Heap × StatsDict),
      ∃ tail, (d.foldl (getstatsStep h) s).1 = s.1 ++ tail := by
  intro d
  induction d with
  | nil => intro s; exact ⟨[], by simp⟩
  | cons p d ih =>
      intro s
      obtain ⟨tail, ht⟩ := ih (getstatsStep h s p)
      refine ⟨[(readCell h p.2).getD (0, 0)] ++ tail, ?_⟩
      rw [List.foldl_cons, ht, getstatsStep_fst, List.append_assoc]

theorem getstats_fold_refs_ge (h : Heap) (n : Nat) :
    ∀ (d : StatsDict) (s : Heap × StatsDict),
      n ≤ s.1.length → (∀ p ∈ s.2, n ≤ p.2) →
      ∀ p ∈ (d.foldl (getstatsStep h) s).2, n ≤ p.2 := by
  intro d
  induction d with
  | nil => intro s _ hacc; simpa using hacc
  | cons q d ih =>
      intro s hlen hacc
      refine ih (getstatsStep h s q) ?_ ?_
      · exact le_trans hlen (by simp [getstatsStep])
      · intro p hp
        simp only [getstatsStep, List.mem_append, List.mem_singleton] at hp
        rcases hp with h1 | rfl
        · exact hacc p h1
        · exact hlen

theorem applyWrites_preserves_low (hbase : Heap) :
    ∀ (ws : List (Nat × StatCell)) (hh : Heap),
      (∀ w ∈ ws, hbase.length ≤ w.1) →
      (∀ r, r < hbase.length → hh[r]? = hbase[r]?) →
      ∀ r, r < hbase.length → (applyWrites ws hh)[r]? = hbase[r]? := by
  intro ws
  induction ws with
  | nil => intro hh _ hagree r hr; simpa [applyWrites] using hagree r hr
  | cons w ws ih =>
      intro hh hws hagree r hr
      have hstep : applyWrites (w :: ws) hh = applyWrites ws (writeCell hh w.1 w.2) := rfl
      rw [hstep]
      refine ih _ (fun w' hw' => hws w' (List.mem_cons_of_mem _ hw')) ?_ r hr
      intro r' hr'
      have hne : w.1 ≠ r' := by
        have := hws w (List.mem_cons_self _ _)
        omega
      rw [writeCell, List.getElem?_set_ne hne]
      exact hagree r' hr'

/-- C4: `getstats` is a deep, independent copy.  For every internal state
whose dictionary references live cells, any sequence of in-place mutations
performed through the cells of the returned copy leaves the internal
mapping reading exactly as before — so a later `getstats` returns the same
content as if no mutation had occurred.  (Rebinding keys of the returned
dictionary is mutation of a separate value and cannot touch the internal
one at all; the cell writes are the interesting case.) -/
theorem getstats_deepcopy_isolated (h : Heap) (d : StatsDict)
    (hwf : ∀ p ∈ d, p.2 < h.length)
    (ws : List (Nat × StatCell))
    (hws : ∀ w ∈ ws, w.1 ∈ (getstats h d).2.map (·.2)) :
    readDict (applyWrites ws (getstats h d).1) d = readDict h d := by
  have hrefs : ∀ p ∈ (getstats h d).2, h.length ≤ p.2 :=
    getstats_fold_refs_ge h h.length d (h, []) le_rfl (by simp)
  obtain ⟨tail, ht⟩ := getstats_fold_heap_ext h d (h, [])
  have hagree : ∀ r, r < h.length → (getstats h d).1[r]? = h[r]? := by
    intro r hr
    rw [show (getstats h d).1 = h ++ tail from ht, List.getElem?_append_left hr]
  have hws' : ∀ w ∈ ws, h.length ≤ w.1 := by
    intro w hw
    obtain ⟨p, hp, hpe⟩ := List.mem_map.1 (hws w hw)
    exact hpe ▸ hrefs p hp
  have key := applyWrites_preserves_low h ws (getstats h d).1 hws' hagree
  refine List.map_congr_left ?_
  intro p hp
  simp only [readCell, key p.2 (hwf p hp)]

/-- Witness for C4: one entry `x -> [3, 5]`; the copy allocates cell 1,
overwriting that cell with `[9, 9]` leaves the internal view unchanged. -/
theorem getstats_deepcopy_isolated_witness :
    (∀ p ∈ ([("x", 0)] : StatsDict), p.2 < ([(3, 5)] : Heap).length) ∧
    (∀ w ∈ ([(1, (9, 9))] : List (Nat × StatCell)),
      w.1 ∈ (getstats [(3, 5)] [("x", 0)]).2.map (·.2)) ∧
    readDict (applyWrites [(1, (9, 9))] (getstats [(3, 5)] [("x", 0)]).1) [("x", 0)]
      = readDict [(3, 5)] [("x", 0)] :=
  ⟨by decide, by decide,
   getstats_deepcopy_isolated [(3, 5)] [("x", 0)] (by decide) [(1, (9, 9))] (by decide)⟩

end Nvtxpy
